import Mathlib

/-!
Shallow embedding of the `udp2docker` C++ library (message protocol, config
manager, logger, UDP client) together with proofs settling the spec claims.

Conventions of the embedding:
* C++ `byte` (`unsigned char`) values are `Nat`s below 256; `buffer_t` is
  `List Nat`.
* Fixed-width integer fields (`uint16_t`, `uint32_t`) are `Nat`s; wherever the
  C++ code truncates (casts, overflowing increments) the model takes `% 2^16`
  or `% 2^32` explicitly.
* Serialized multi-byte integers are laid out little-endian, matching the raw
  `memcpy` field copies of the source on the x86 targets it is built for.
* Stateful classes become structures with explicit state-passing functions.
* External effects (the filesystem, `sendto`) enter as explicit parameters:
  a filesystem is a partial map from path to file content, the transport-level
  outcome of `sendto` is a boolean input.
-/

namespace Udp2docker

/-! ## Little-endian byte encoding of fixed-width integers -/

/-- Little-endian bytes of a `uint16_t` value (as laid down by `memcpy`). -/
def u16le (n : Nat) : List Nat :=
  [n % 256, n / 256 % 256]

/-- Little-endian bytes of a `uint32_t` value (as laid down by `memcpy`). -/
def u32le (n : Nat) : List Nat :=
  [n % 256, n / 256 % 256, n / 65536 % 256, n / 16777216 % 256]

/-- Read a `uint16_t` at byte offset `off` (the `memcpy` in
`MessageHeader::deserialize`). Out-of-range reads yield 0 bytes. -/
def rdU16 (data : List Nat) (off : Nat) : Nat :=
  data.getD off 0 + 256 * data.getD (off + 1) 0

/-- Read a `uint32_t` at byte offset `off` (the `memcpy` in
`MessageHeader::deserialize`). Out-of-range reads yield 0 bytes. -/
def rdU32 (data : List Nat) (off : Nat) : Nat :=
  data.getD off 0 + 256 * data.getD (off + 1) 0 + 65536 * data.getD (off + 2) 0 +
    16777216 * data.getD (off + 3) 0

/-! ## CRC-32 (`MessageProtocol::calculate_checksum`) -/

/-- One shift-and-conditionally-xor step of the bitwise CRC-32 loop body:
`checksum = (checksum >> 1) ^ 0xEDB88320` when the low bit is set, else
`checksum >>= 1`. -/
def crcBit (c : Nat) : Nat :=
  if c % 2 = 1 then (c / 2) ^^^ 0xEDB88320 else c / 2

/-- `k` iterations of `crcBit` (the inner `for (int i = 0; i < 8; ++i)`). -/
def crcBits : Nat → Nat → Nat
  | 0, c => c
  | k + 1, c => crcBits k (crcBit c)

/-- Absorb one data byte: `checksum ^= b` followed by eight bit steps. -/
def crcStep (c b : Nat) : Nat :=
  crcBits 8 (c ^^^ b)

/-- `MessageProtocol::calculate_checksum`: CRC-32 with polynomial `0xEDB88320`,
initial value `0xFFFFFFFF` and final complement (`~checksum`, i.e. xor with
`0xFFFFFFFF` on `uint32_t`). -/
def calculate_checksum (data : List Nat) : Nat :=
  (data.foldl crcStep 0xFFFFFFFF) ^^^ 0xFFFFFFFF

/-! ## Message header and message (`message_protocol.h` / `.cpp`) -/

/-- `MessageHeader`: field defaults mirror the in-class initializers
(`type` and `priority` carry the underlying `uint16_t` enum ordinals,
`MessageType::DATA = 2`, `Priority::NORMAL = 2`). -/
structure MessageHeader where
  magic_number : Nat := 0x55AA55AA
  version : Nat := 1
  type : Nat := 2
  priority : Nat := 2
  sequence_id : Nat := 0
  timestamp : Nat := 0
  payload_size : Nat := 0
  checksum : Nat := 0
deriving DecidableEq, Repr

/-- `MessageHeader::header_size()`: the serialized header is 32 bytes
(26 bytes of fields plus 6 bytes of zero padding left by the
zero-initialized buffer). -/
def header_size : Nat := 32

/-- `MessageHeader::serialize`: fields are copied at offsets
0 (magic), 4 (version), 6 (type), 8 (priority), 10 (sequence), 14 (timestamp),
18 (payload size), 22 (checksum); bytes 26–31 stay zero. -/
def MessageHeader.serialize (h : MessageHeader) : List Nat :=
  u32le h.magic_number ++ u16le h.version ++ u16le h.type ++ u16le h.priority ++
    u32le h.sequence_id ++ u32le h.timestamp ++ u32le h.payload_size ++
    u32le h.checksum ++ [0, 0, 0, 0, 0, 0]

/-- `MessageHeader::deserialize`: fails on fewer than 32 bytes or a magic
number other than `0x55AA55AA`; otherwise reads every field back from its
offset (the enum casts on `type`/`priority` keep the raw `uint16_t` value). -/
def MessageHeader.deserialize (data : List Nat) : Option MessageHeader :=
  if data.length < header_size then
    none
  else if rdU32 data 0 ≠ 0x55AA55AA then
    none
  else
    some
      { magic_number := 0x55AA55AA
        version := rdU16 data 4
        type := rdU16 data 6
        priority := rdU16 data 8
        sequence_id := rdU32 data 10
        timestamp := rdU32 data 14
        payload_size := rdU32 data 18
        checksum := rdU32 data 22 }

/-- `Message`: header, payload bytes and string metadata map (modelled as an
association list). -/
structure Message where
  header : MessageHeader := {}
  payload : List Nat := []
  metadata : List (String × String) := []
deriving DecidableEq, Repr

/-- `Message::is_valid`: magic number matches and the declared payload size
equals the carried payload's length (the `uint32_t` field is compared with the
`size_t` length). -/
def Message.is_valid (m : Message) : Bool :=
  m.header.magic_number = 0x55AA55AA && m.header.payload_size = m.payload.length

/-- Well-formedness of a `Message` as represented in C++: the magic number has
its (never reassigned) default, `type`/`priority` fit `uint16_t`,
`sequence_id` fits `uint32_t`, the payload length fits `uint32_t`, and every
payload entry is a byte (`unsigned char`). -/
def Message.wf (m : Message) : Prop :=
  m.header.magic_number = 0x55AA55AA ∧ m.header.type < 65536 ∧
    m.header.priority < 65536 ∧ m.header.sequence_id < 4294967296 ∧
    m.payload.length < 4294967296 ∧ ∀ b ∈ m.payload, b < 256

instance (m : Message) : Decidable m.wf := by
  unfold Message.wf; infer_instance

/-! ## MessageProtocol state and operations -/

/-- `MAX_BUFFER_SIZE` from `common.h`. -/
def MAX_BUFFER_SIZE : Nat := 65536

/-- Mutable state of a `MessageProtocol` instance. -/
structure Proto where
  sequence_counter : Nat := 0
  protocol_version : Nat := 1
  compression_enabled : Bool := false
  encryption_enabled : Bool := false
  encryption_key : String := ""
  max_message_size : Nat := MAX_BUFFER_SIZE
deriving DecidableEq, Repr

/-- `MessageProtocol::MessageProtocol()`. -/
def Proto.init : Proto := {}

/-- `MessageProtocol::compress_data` — placeholder, returns its input. -/
def compress_data (data : List Nat) : List Nat := data

/-- `MessageProtocol::decompress_data` — placeholder, returns its input. -/
def decompress_data (data : List Nat) : List Nat := data

/-- `MessageProtocol::encrypt_data` — placeholder, returns its input. -/
def encrypt_data (data : List Nat) : List Nat := data

/-- `MessageProtocol::decrypt_data` — placeholder, returns its input. -/
def decrypt_data (data : List Nat) : List Nat := data

/-- `MessageProtocol::serialize`. The wall-clock timestamp produced by
`get_timestamp()` is an explicit parameter `ts`. Rejects a payload larger
than `max_message_size_`; stamps version and timestamp; applies the
(pass-through) compression/encryption hooks when enabled; recomputes
`payload_size` (with the `static_cast<uint32_t>` truncation) and the
checksum over the processed payload; emits header bytes then payload. -/
def Proto.serialize (p : Proto) (ts : Nat) (message : Message) : Option (List Nat) :=
  if message.payload.length > p.max_message_size then
    none
  else
    let processed₁ := if p.compression_enabled then compress_data message.payload
      else message.payload
    let processed := if p.encryption_enabled then encrypt_data processed₁ else processed₁
    let hdr : MessageHeader :=
      { message.header with
        version := p.protocol_version
        timestamp := ts % 4294967296
        payload_size := processed.length % 4294967296
        checksum := calculate_checksum processed }
    some (hdr.serialize ++ processed)

/-- `MessageProtocol::deserialize`: rejects short input, a bad header, a
declared payload size overrunning the buffer, and a checksum mismatch;
otherwise returns a freshly constructed message (empty metadata) carrying the
decoded header and the (pass-through decrypted/decompressed) payload slice. -/
def Proto.deserialize (p : Proto) (data : List Nat) : Option Message :=
  if data.length < header_size then
    none
  else
    match MessageHeader.deserialize (data.take header_size) with
    | none => none
    | some hdr =>
      if data.length < header_size + hdr.payload_size then
        none
      else
        let payload_data := (data.drop header_size).take hdr.payload_size
        if calculate_checksum payload_data ≠ hdr.checksum then
          none
        else
          let processed₁ := if p.encryption_enabled then decrypt_data payload_data
            else payload_data
          let processed := if p.compression_enabled then decompress_data processed₁
            else processed₁
          some { header := hdr, payload := processed }

/-- `MessageProtocol::get_next_sequence_id`: `return ++sequence_counter_;`
on a `uint32_t` counter (increment wraps modulo `2^32`). Returns the new
value and the updated state. -/
def Proto.get_next_sequence_id (p : Proto) : Nat × Proto :=
  let c := (p.sequence_counter + 1) % 4294967296
  (c, { p with sequence_counter := c })

/-- `MessageProtocol::reset_sequence_id`: `sequence_counter_ = 0`. -/
def Proto.reset_sequence_id (p : Proto) : Proto :=
  { p with sequence_counter := 0 }

/-- The protocol state after `n` consecutive `get_next_sequence_id` calls on a
freshly constructed instance. -/
def protoAfterCalls : Nat → Proto
  | 0 => Proto.init
  | n + 1 => (protoAfterCalls n).get_next_sequence_id.2

/-! ## MessageBuilder -/

/-- One fluent `MessageBuilder` setter call. -/
inductive BuilderOp where
  | set_type (t : Nat)
  | set_priority (pr : Nat)
  | set_payload_bytes (payload : List Nat)
  | set_payload_string (payload : String)
  | add_metadata (k v : String)
  | set_sequence_id (seq_id : Nat)
deriving DecidableEq, Repr

/-- `std::map<string,string>::operator[]` assignment on the metadata map. -/
def metaInsert : List (String × String) → String → String → List (String × String)
  | [], k, v => [(k, v)]
  | kv :: rest, k, v =>
    if kv.1 = k then (k, v) :: rest else kv :: metaInsert rest k v

/-- Apply one `MessageBuilder` setter to the message under construction.
Both `set_payload` overloads recompute `header.payload_size` from the new
payload with the `static_cast<uint32_t>` truncation; the string overload
stores the string's characters as bytes. -/
def applyBuilderOp (m : Message) : BuilderOp → Message
  | .set_type t => { m with header := { m.header with type := t } }
  | .set_priority pr => { m with header := { m.header with priority := pr } }
  | .set_payload_bytes payload =>
    { m with payload := payload
             header := { m.header with payload_size := payload.length % 4294967296 } }
  | .set_payload_string payload =>
    let bytes := payload.data.map (fun c => c.toNat % 256)
    { m with payload := bytes
             header := { m.header with payload_size := bytes.length % 4294967296 } }
  | .add_metadata k v => { m with metadata := metaInsert m.metadata k v }
  | .set_sequence_id seq_id => { m with header := { m.header with sequence_id := seq_id } }

/-- `MessageBuilder()` default-constructs its message. -/
def builderInit : Message := {}

/-- Run a chain of fluent setter calls. -/
def runBuilder (ops : List BuilderOp) : Message :=
  ops.foldl applyBuilderOp builderInit

/-- `MessageBuilder::build()` moves the constructed message out. -/
def build (m : Message) : Message := m

/-! ## Shared error codes (`common.h`) -/

/-- `ErrorCode` from `common.h`. -/
inductive ErrorCode where
  | SUCCESS
  | SOCKET_INIT_FAILED
  | SOCKET_CREATE_FAILED
  | SOCKET_BIND_FAILED
  | SOCKET_SEND_FAILED
  | SOCKET_RECEIVE_FAILED
  | INVALID_ADDRESS
  | TIMEOUT
  | INVALID_PARAMETER
  | PROTOCOL_ERROR
deriving DecidableEq, Repr

/-! ## Configuration manager (`config_manager.h` / `.cpp`) -/

/-- `ConfigType` from `config_manager.h`. -/
inductive ConfigType where
  | STRING
  | INTEGER
  | BOOLEAN
  | DOUBLE
  | LIST
deriving DecidableEq, Repr

/-- `ConfigItem`: type tag, string-encoded value, description, required flag. -/
structure ConfigItem where
  type : ConfigType := .STRING
  value : String := ""
  description : String := ""
  required : Bool := false
deriving DecidableEq, Repr

/-- The manager's `std::map<string_t, ConfigItem>` as a lookup function. -/
def CMap : Type := String → Option ConfigItem

/-- `config_items_[key] = item` (insert-or-assign). -/
def mapInsert (m : CMap) (key : String) (item : ConfigItem) : CMap :=
  fun k => if k = key then some item else m k

/-- The empty key→item map. -/
def emptyCMap : CMap := fun _ => none

/-- The effect of `for (pair : *parsed) config_items_[pair.first] = pair.second`
in `load_json_config`/`load_ini_config`: entries of the parsed map overwrite,
all other keys keep their current item. -/
def mergeItems (old parsed : CMap) : CMap :=
  fun k => match parsed k with
  | some item => some item
  | none => old k

/-- Mutable state of a `ConfigManager` (the change callback is not modelled:
invoking it never alters the map, and its exceptions are swallowed). -/
structure CMState where
  config_file : String := ""
  config_items : CMap := emptyCMap

/-- The line splitting performed by `std::getline(ss, line)` over the whole
input: split at every newline character. (For an input ending in a newline
`getline` yields no final empty line while this splitter yields one; both
parsers skip empty lines, so the resulting maps agree.) -/
def splitOnChar (sep : Char) : List Char → List (List Char)
  | [] => [[]]
  | c :: rest =>
    match splitOnChar sep rest with
    | [] => [[c]]
    | cur :: done => if c = sep then [] :: cur :: done else (c :: cur) :: done

/-- Characters erased from every line by `parse_json`:
braces, double quote, comma, space, tab. -/
def jsonStripChar (c : Char) : Bool :=
  c = Char.ofNat 123 || c = Char.ofNat 125 || c = Char.ofNat 34 ||
    c = ',' || c = ' ' || c = '\t'

/-- One line of `ConfigManager::parse_json`: strip the special characters,
skip an empty result, split at the first `:` into key and value. -/
def parseJsonLine (line : List Char) : Option (String × ConfigItem) :=
  let cs := line.filter (fun c => !jsonStripChar c)
  if cs.isEmpty then none
  else
    let key := cs.takeWhile (fun c => c ≠ ':')
    match cs.dropWhile (fun c => c ≠ ':') with
    | [] => none
    | _ :: rest =>
      some (String.mk key, { type := .STRING, value := String.mk rest,
                             description := "From JSON file" })

/-- `ConfigManager::parse_json`: a line-oriented approximation of JSON; every
input yields a map (unparseable lines are simply skipped). -/
def parse_json (json_str : String) : Option CMap :=
  some ((splitOnChar (Char.ofNat 10) json_str.data).foldl
    (fun m line =>
      match parseJsonLine line with
      | some kv => mapInsert m kv.1 kv.2
      | none => m)
    emptyCMap)

/-- Space or tab, the characters trimmed by `parse_ini`. -/
def spTab (c : Char) : Bool := c = ' ' || c = '\t'

/-- Trim leading and trailing spaces/tabs from a line. -/
def trimChars (cs : List Char) : List Char :=
  ((cs.dropWhile spTab).reverse.dropWhile spTab).reverse

/-- One line of `ConfigManager::parse_ini`, acting on the accumulated
(current section, map) state: skip blank/comment lines, `[section]` lines
update the section, `key = value` lines store `section.key` (both sides
trimmed); anything else is ignored. -/
def parseIniLine (acc : String × CMap) (line : List Char) : String × CMap :=
  let cs := trimChars line
  match cs with
  | [] => acc
  | c :: _ =>
    if c = '#' || c = ';' then acc
    else if c = '[' && cs.getLast? = some ']' then
      (String.mk ((cs.drop 1).dropLast), acc.2)
    else
      let key₀ := cs.takeWhile (fun ch => ch ≠ '=')
      match cs.dropWhile (fun ch => ch ≠ '=') with
      | [] => acc
      | _ :: rest =>
        let key₁ := String.mk (trimChars key₀)
        let value := String.mk (trimChars rest)
        let key := if acc.1 = "" then key₁ else acc.1 ++ "." ++ key₁
        (acc.1, mapInsert acc.2 key
          { type := .STRING, value := value, description := "From INI file" })

/-- `ConfigManager::parse_ini`: INI parsing with `[section]` headers; every
input yields a map (unparseable lines are simply skipped). -/
def parse_ini (ini_str : String) : Option CMap :=
  some ((splitOnChar (Char.ofNat 10) ini_str.data).foldl parseIniLine ("", emptyCMap)).2

/-- `ConfigManager::import_config`: dispatch on the format string ("json"
parses as JSON, anything else as INI), replace the whole map on success,
report `PROTOCOL_ERROR` when the parser yields nothing. -/
def CMState.import_config (st : CMState) (config_str format : String) :
    ErrorCode × CMState :=
  if format = "json" then
    match parse_json config_str with
    | some parsed => (.SUCCESS, { st with config_items := parsed })
    | none => (.PROTOCOL_ERROR, st)
  else
    match parse_ini config_str with
    | some parsed => (.SUCCESS, { st with config_items := parsed })
    | none => (.PROTOCOL_ERROR, st)

/-- `ConfigManager::get_file_extension`: the lowercased text after the last
`.`, or `""` when there is no dot. -/
def get_file_extension (file_path : String) : String :=
  let cs := file_path.toList
  if cs.contains '.' then
    String.mk (((cs.reverse.takeWhile (fun c => c ≠ '.')).reverse).map Char.toLower)
  else ""

/-- A filesystem: a partial map from path to file content. `none` means the
file cannot be opened. -/
def FileSystem : Type := String → Option String

/-- `ConfigManager::load_json_config`: read the file, parse, merge the parsed
entries into the existing map. -/
def load_json_config (fs : FileSystem) (st : CMState) (file_path : String) :
    ErrorCode × CMState :=
  match fs file_path with
  | none => (.SOCKET_RECEIVE_FAILED, st)
  | some content =>
    match parse_json content with
    | some parsed =>
      (.SUCCESS, { st with config_items := mergeItems st.config_items parsed })
    | none => (.PROTOCOL_ERROR, st)

/-- `ConfigManager::load_ini_config`: read the file, parse, merge the parsed
entries into the existing map. -/
def load_ini_config (fs : FileSystem) (st : CMState) (file_path : String) :
    ErrorCode × CMState :=
  match fs file_path with
  | none => (.SOCKET_RECEIVE_FAILED, st)
  | some content =>
    match parse_ini content with
    | some parsed =>
      (.SUCCESS, { st with config_items := mergeItems st.config_items parsed })
    | none => (.PROTOCOL_ERROR, st)

/-- `ConfigManager::load_config`: records the path, rejects an empty path with
`INVALID_PARAMETER`, treats an unopenable file as `SUCCESS` (current
configuration kept), and otherwise dispatches on the file extension
("json" → JSON loader, anything else → INI loader). -/
def load_config (fs : FileSystem) (st : CMState) (config_file : String) :
    ErrorCode × CMState :=
  let st₁ := { st with config_file := config_file }
  if config_file = "" then (.INVALID_PARAMETER, st₁)
  else
    match fs config_file with
    | none => (.SUCCESS, st₁)
    | some _ =>
      if get_file_extension config_file = "json" then
        load_json_config fs st₁ config_file
      else
        load_ini_config fs st₁ config_file

/-- `ConfigManager::set` (the change callback cannot alter the map and its
exceptions are swallowed, so only the insertion is modelled). -/
def CMState.set (st : CMState) (key : String) (item : ConfigItem) : CMState :=
  { st with config_items := mapInsert st.config_items key item }

/-- `ConfigManager::set_string`. -/
def CMState.set_string (st : CMState) (key value description : String) : CMState :=
  st.set key { type := .STRING, value := value, description := description }

/-- `ConfigManager::set_int`. -/
def CMState.set_int (st : CMState) (key : String) (value : Int)
    (description : String) : CMState :=
  st.set key { type := .INTEGER, value := toString value, description := description }

/-- `ConfigManager::set_bool`. -/
def CMState.set_bool (st : CMState) (key : String) (value : Bool)
    (description : String) : CMState :=
  st.set key { type := .BOOLEAN, value := if value then "true" else "false",
               description := description }

/-- `ConfigManager::set_defaults`, as run by the constructor. -/
def set_defaults (st : CMState) : CMState :=
  ((((((((st.set_string "server.host" "127.0.0.1" "UDP server host address"
    ).set_int "server.port" 8888 "UDP server port"
    ).set_int "client.timeout_ms" 5000 "Client timeout in milliseconds"
    ).set_int "client.max_retries" 3 "Maximum number of retries"
    ).set_bool "client.enable_keep_alive" true "Enable keep-alive heartbeat"
    ).set_int "client.keep_alive_interval_ms" 30000 "Keep-alive interval in milliseconds"
    ).set_string "log.level" "INFO" "Log level (TRACE, DEBUG, INFO, WARN, ERROR, FATAL)"
    ).set_string "log.file" "udp2docker.log" "Log file path"
    ).set_bool "log.console" true "Enable console logging"

/-- `ConfigManager::ConfigManager("")`: defaults installed, no file loaded. -/
def CMState.init : CMState := set_defaults {}

/-! ## Logger (`logger.h` / `.cpp`) -/

/-- `LogLevel` from `logger.h` (`ERROR` is spelled `LOG_ERROR` in the
implementation file). -/
inductive LogLevel where
  | TRACE
  | DEBUG
  | INFO
  | WARN
  | LOG_ERROR
  | FATAL
  | OFF
deriving DecidableEq, Repr

/-- The underlying integer value of each `LogLevel` enumerator. -/
def LogLevel.toNat : LogLevel → Nat
  | .TRACE => 0
  | .DEBUG => 1
  | .INFO => 2
  | .WARN => 3
  | .LOG_ERROR => 4
  | .FATAL => 5
  | .OFF => 6

/-- The level-related state of a `Logger` instance. -/
structure Logger where
  name : String := ""
  level : LogLevel := .INFO
deriving DecidableEq, Repr

/-- `Logger::Logger(name)`: level defaults to `INFO`. -/
def Logger.init (name : String) : Logger := { name := name }

/-- `Logger::set_level`. -/
def Logger.set_level (lg : Logger) (level : LogLevel) : Logger :=
  { lg with level := level }

/-- `Logger::is_enabled`: `level >= level_` on the underlying enum values. -/
def Logger.is_enabled (lg : Logger) (level : LogLevel) : Bool :=
  decide (lg.level.toNat ≤ level.toNat)

/-! ## UDP client (`udp_client.h` / `.cpp`) -/

/-- `UdpClient::Statistics` counters (the `last_activity` wall-clock stamp is
outside the model). -/
structure Statistics where
  packets_sent : Nat := 0
  packets_received : Nat := 0
  bytes_sent : Nat := 0
  bytes_received : Nat := 0
  send_errors : Nat := 0
  receive_errors : Nat := 0
deriving DecidableEq, Repr

/-- The state of a `UdpClient` relevant to `send` and the statistics. -/
structure UdpClientState where
  is_initialized : Bool := false
  stats : Statistics := {}
deriving DecidableEq, Repr

/-- `UdpClient::update_stats_sent`. -/
def update_stats_sent (st : UdpClientState) (bytes : Nat) : UdpClientState :=
  { st with stats := { st.stats with
      packets_sent := st.stats.packets_sent + 1
      bytes_sent := st.stats.bytes_sent + bytes } }

/-- `UdpClient::update_stats_error`. -/
def update_stats_error (st : UdpClientState) (is_send_error : Bool) : UdpClientState :=
  if is_send_error then
    { st with stats := { st.stats with send_errors := st.stats.send_errors + 1 } }
  else
    { st with stats := { st.stats with receive_errors := st.stats.receive_errors + 1 } }

/-- `UdpClient::send`. The outcome of the external `sendto` system call is the
explicit boolean input `sendto_ok` (`false` models `result == SOCKET_ERROR ||
result < 0`); target-address resolution has no effect on the returned code or
the statistics and is omitted. -/
def udpSend (st : UdpClientState) (data : List Nat) (sendto_ok : Bool) :
    ErrorCode × UdpClientState :=
  if !st.is_initialized then (.SOCKET_INIT_FAILED, st)
  else if data.isEmpty then (.INVALID_PARAMETER, st)
  else if !sendto_ok then (.SOCKET_SEND_FAILED, update_stats_error st true)
  else (.SUCCESS, update_stats_sent st data.length)

/-! ## Lemmas about the CRC-32 implementation -/

theorem xor_poly_ge {a : Nat} (ha : a < 2 ^ 31) : 2 ^ 31 ≤ a ^^^ 0xEDB88320 := by
  by_contra hlt
  push_neg at hlt
  have h1 : (a ^^^ 0xEDB88320).testBit 31 = false :=
    Nat.testBit_lt_two_pow hlt
  have h2 : a.testBit 31 = false := Nat.testBit_lt_two_pow ha
  rw [Nat.testBit_xor, h2] at h1
  simp at h1
  exact absurd h1 (by decide)

theorem crcBit_lt {c : Nat} (h : c < 2 ^ 32) : crcBit c < 2 ^ 32 := by
  unfold crcBit
  split
  · exact Nat.xor_lt_two_pow (by omega) (by norm_num)
  · omega

theorem crcBit_inj {c₁ c₂ : Nat} (h₁ : c₁ < 2 ^ 32) (h₂ : c₂ < 2 ^ 32)
    (h : crcBit c₁ = crcBit c₂) : c₁ = c₂ := by
  unfold crcBit at h
  by_cases p₁ : c₁ % 2 = 1 <;> by_cases p₂ : c₂ % 2 = 1 <;>
    simp only [p₁, p₂, if_true, if_false, if_pos, if_neg, reduceIte] at h
  · have h' := congrArg (· ^^^ 0xEDB88320) h
    simp only [Nat.xor_cancel_right] at h'
    omega
  · have hx := xor_poly_ge (a := c₁ / 2) (by omega)
    rw [h] at hx
    omega
  · have hx := xor_poly_ge (a := c₂ / 2) (by omega)
    rw [← h] at hx
    omega
  · omega

theorem crcBits_lt {c : Nat} (k : Nat) (h : c < 2 ^ 32) : crcBits k c < 2 ^ 32 := by
  induction k generalizing c with
  | zero => exact h
  | succ k ih => exact ih (crcBit_lt h)

theorem crcBits_inj {c₁ c₂ : Nat} (k : Nat) (h₁ : c₁ < 2 ^ 32) (h₂ : c₂ < 2 ^ 32)
    (h : crcBits k c₁ = crcBits k c₂) : c₁ = c₂ := by
  induction k generalizing c₁ c₂ with
  | zero => exact h
  | succ k ih => exact crcBit_inj h₁ h₂ (ih (crcBit_lt h₁) (crcBit_lt h₂) h)

theorem crcStep_lt {c b : Nat} (hc : c < 2 ^ 32) (hb : b < 256) :
    crcStep c b < 2 ^ 32 :=
  crcBits_lt 8 (Nat.xor_lt_two_pow hc (by omega))

theorem crcStep_inj {c₁ c₂ b : Nat} (h₁ : c₁ < 2 ^ 32) (h₂ : c₂ < 2 ^ 32)
    (hb : b < 256) (h : crcStep c₁ b = crcStep c₂ b) : c₁ = c₂ := by
  have hb32 : b < 2 ^ 32 := by omega
  have := crcBits_inj 8 (Nat.xor_lt_two_pow h₁ hb32) (Nat.xor_lt_two_pow h₂ hb32) h
  have h' := congrArg (· ^^^ b) this
  simpa only [Nat.xor_cancel_right] using h'

theorem crcStep_ne_of_byte_ne {c b₁ b₂ : Nat} (hc : c < 2 ^ 32) (hb₁ : b₁ < 256)
    (hb₂ : b₂ < 256) (hne : b₁ ≠ b₂) : crcStep c b₁ ≠ crcStep c b₂ := by
  intro h
  apply hne
  have hx := crcBits_inj 8 (Nat.xor_lt_two_pow hc (by omega))
    (Nat.xor_lt_two_pow hc (by omega)) h
  have h' := congrArg (fun x => c ^^^ x) hx
  simpa only [Nat.xor_cancel_left] using h'

theorem foldl_crcStep_lt (l : List Nat) (hl : ∀ b ∈ l, b < 256) :
    ∀ c, c < 2 ^ 32 → l.foldl crcStep c < 2 ^ 32 := by
  induction l with
  | nil => intro c hc; exact hc
  | cons b rest ih =>
    intro c hc
    exact ih (fun x hx => hl x (List.mem_cons_of_mem _ hx))
      _ (crcStep_lt hc (hl b (List.mem_cons_self _ _)))

theorem foldl_crcStep_ne (l : List Nat) (hl : ∀ b ∈ l, b < 256) :
    ∀ c₁ c₂, c₁ < 2 ^ 32 → c₂ < 2 ^ 32 → c₁ ≠ c₂ →
      l.foldl crcStep c₁ ≠ l.foldl crcStep c₂ := by
  induction l with
  | nil => intro c₁ c₂ _ _ hne; exact hne
  | cons b rest ih =>
    intro c₁ c₂ h₁ h₂ hne
    have hb : b < 256 := hl b (List.mem_cons_self _ _)
    exact ih (fun x hx => hl x (List.mem_cons_of_mem _ hx)) _ _
      (crcStep_lt h₁ hb) (crcStep_lt h₂ hb)
      (fun h => hne (crcStep_inj h₁ h₂ hb h))

/-- Changing a single byte of the input (to a different byte value) always
changes the CRC-32 checksum. -/
theorem calculate_checksum_set_ne (l : List Nat) (i v : Nat) (hl : ∀ b ∈ l, b < 256)
    (hi : i < l.length) (hv : v < 256) (hne : v ≠ l.get ⟨i, hi⟩) :
    calculate_checksum (l.set i v) ≠ calculate_checksum l := by
  have hdecomp : l = l.take i ++ l.get ⟨i, hi⟩ :: l.drop (i + 1) := by
    conv_lhs => rw [← List.take_append_drop i l, List.drop_eq_getElem_cons hi]
    rfl
  have hset : l.set i v = l.take i ++ v :: l.drop (i + 1) :=
    List.set_eq_take_cons_drop v hi
  unfold calculate_checksum
  intro h
  have h2 : (l.set i v).foldl crcStep 0xFFFFFFFF = l.foldl crcStep 0xFFFFFFFF := by
    have h' := congrArg (· ^^^ 0xFFFFFFFF) h
    simpa only [Nat.xor_cancel_right] using h'
  rw [hset] at h2
  conv_rhs at h2 => rw [hdecomp]
  rw [List.foldl_append, List.foldl_append] at h2
  simp only [List.foldl_cons] at h2
  have htake : ∀ b ∈ l.take i, b < 256 := fun b hb => hl b (List.mem_of_mem_take hb)
  have hdropb : ∀ b ∈ l.drop (i + 1), b < 256 := fun b hb => hl b (List.mem_of_mem_drop hb)
  have hc₀lt : (l.take i).foldl crcStep 0xFFFFFFFF < 2 ^ 32 :=
    foldl_crcStep_lt _ htake _ (by norm_num)
  have hbi : l.get ⟨i, hi⟩ < 256 := hl _ (List.get_mem l i hi)
  exact foldl_crcStep_ne _ hdropb _ _ (crcStep_lt hc₀lt hv) (crcStep_lt hc₀lt hbi)
    (crcStep_ne_of_byte_ne hc₀lt hv hbi hne) h2

/-- The CRC-32 of byte data fits in a `uint32_t`. -/
theorem calculate_checksum_lt (l : List Nat) (hl : ∀ b ∈ l, b < 256) :
    calculate_checksum l < 2 ^ 32 := by
  unfold calculate_checksum
  exact Nat.xor_lt_two_pow (foldl_crcStep_lt l hl _ (by norm_num)) (by norm_num)

/-! ## Header serialization lemmas -/

theorem deserialize_explicit (c0 c1 c2 c3 c4 c5 c6 c7 c8 c9 c10 c11 c12 c13 c14 c15 c16
    c17 c18 c19 c20 c21 c22 c23 c24 c25 c26 c27 c28 c29 c30 c31 : Nat) :
    MessageHeader.deserialize [c0, c1, c2, c3, c4, c5, c6, c7, c8, c9, c10, c11, c12,
      c13, c14, c15, c16, c17, c18, c19, c20, c21, c22, c23, c24, c25, c26, c27, c28,
      c29, c30, c31] =
    if c0 + 256 * c1 + 65536 * c2 + 16777216 * c3 ≠ 0x55AA55AA then none
    else some { magic_number := 0x55AA55AA
                version := c4 + 256 * c5
                type := c6 + 256 * c7
                priority := c8 + 256 * c9
                sequence_id := c10 + 256 * c11 + 65536 * c12 + 16777216 * c13
                timestamp := c14 + 256 * c15 + 65536 * c16 + 16777216 * c17
                payload_size := c18 + 256 * c19 + 65536 * c20 + 16777216 * c21
                checksum := c22 + 256 * c23 + 65536 * c24 + 16777216 * c25 } := rfl

theorem serialize_explicit (ver ty pr sq ts ps ck : Nat) :
    MessageHeader.serialize ⟨0x55AA55AA, ver, ty, pr, sq, ts, ps, ck⟩ =
      [170, 85, 170, 85,
       ver % 256, ver / 256 % 256,
       ty % 256, ty / 256 % 256,
       pr % 256, pr / 256 % 256,
       sq % 256, sq / 256 % 256, sq / 65536 % 256, sq / 16777216 % 256,
       ts % 256, ts / 256 % 256, ts / 65536 % 256, ts / 16777216 % 256,
       ps % 256, ps / 256 % 256, ps / 65536 % 256, ps / 16777216 % 256,
       ck % 256, ck / 256 % 256, ck / 65536 % 256, ck / 16777216 % 256,
       0, 0, 0, 0, 0, 0] := by
  simp only [MessageHeader.serialize, u32le, u16le, List.cons_append, List.nil_append]

theorem header_roundtrip (h : MessageHeader) (hm : h.magic_number = 0x55AA55AA) :
    MessageHeader.deserialize h.serialize =
      some { magic_number := 0x55AA55AA
             version := h.version % 65536
             type := h.type % 65536
             priority := h.priority % 65536
             sequence_id := h.sequence_id % 4294967296
             timestamp := h.timestamp % 4294967296
             payload_size := h.payload_size % 4294967296
             checksum := h.checksum % 4294967296 } := by
  obtain ⟨mg, ver, ty, pr, sq, ts, ps, ck⟩ := h
  simp only at hm ⊢
  subst hm
  rw [serialize_explicit, deserialize_explicit]
  norm_num
  exact ⟨by omega, by omega, by omega, by omega, by omega, by omega, by omega⟩

/-! ## Claim C1: serialize/deserialize round trip -/

/-- A serialized header is exactly 32 bytes. -/
theorem headerSerialize_length (h : MessageHeader) : h.serialize.length = 32 := by
  simp [MessageHeader.serialize, u32le, u16le]

/-- `serialize` under the size limit: the emitted bytes are the stamped header
followed by the (pass-through processed) payload. -/
theorem serialize_eq (p : Proto) (ts : Nat) (m : Message)
    (hle : m.payload.length ≤ p.max_message_size) :
    p.serialize ts m = some ((MessageHeader.serialize
      { m.header with
        version := p.protocol_version
        timestamp := ts % 4294967296
        payload_size := m.payload.length % 4294967296
        checksum := calculate_checksum m.payload }) ++ m.payload) := by
  unfold Proto.serialize
  rw [if_neg (by omega)]
  simp only [compress_data, encrypt_data, ite_self]

/-- C1: for every message whose payload does not exceed the maximum message
size (with compression/encryption as the pass-through no-ops, whether enabled
or not), deserializing the serialization succeeds and returns a message with
the same header type, header priority, header sequence_id and payload bytes
(the version/timestamp/payload_size/checksum fields are the ones stamped by
`serialize`). -/
theorem C1_serialize_deserialize_roundtrip (p : Proto) (ts : Nat) (m : Message) (hwf : m.wf)
    (hle : m.payload.length ≤ p.max_message_size) :
    (p.serialize ts m).bind p.deserialize =
      some { header := { magic_number := 0x55AA55AA
                         version := p.protocol_version % 65536
                         type := m.header.type
                         priority := m.header.priority
                         sequence_id := m.header.sequence_id
                         timestamp := ts % 4294967296
                         payload_size := m.payload.length
                         checksum := calculate_checksum m.payload }
             payload := m.payload
             metadata := [] } := by
  obtain ⟨hmg, hty, hpr, hsq, hlen, hbytes⟩ := hwf
  rw [serialize_eq p ts m hle, Option.some_bind]
  have hcrc : calculate_checksum m.payload < 4294967296 :=
    calculate_checksum_lt m.payload hbytes
  unfold Proto.deserialize
  simp only [header_size]
  rw [List.take_left' (headerSerialize_length _), List.drop_left' (headerSerialize_length _)]
  rw [header_roundtrip
    { m.header with
      version := p.protocol_version
      timestamp := ts % 4294967296
      payload_size := m.payload.length % 4294967296
      checksum := calculate_checksum m.payload } hmg]
  rw [List.length_append, headerSerialize_length]
  dsimp only
  have hps : m.payload.length % 4294967296 % 4294967296 = m.payload.length := by omega
  have hts : ts % 4294967296 % 4294967296 = ts % 4294967296 := by omega
  have hck : calculate_checksum m.payload % 4294967296 = calculate_checksum m.payload := by
    omega
  rw [hps, hts, hck]
  rw [if_neg (by omega)]
  rw [if_neg (by omega)]
  rw [List.take_length]
  rw [if_neg (by simp)]
  simp only [decrypt_data, decompress_data, ite_self]
  simp only [Option.some.injEq, Message.mk.injEq, MessageHeader.mk.injEq]
  exact ⟨⟨trivial, trivial, by omega, by omega, by omega, trivial, trivial, trivial⟩,
    trivial, trivial⟩

/-- Witness for C1 at a concrete protocol state and message. -/
theorem C1_witness :
    ((Proto.init.serialize 7 { header := { sequence_id := 5 }, payload := [72, 66] }).bind
      Proto.init.deserialize) =
      some { header := { magic_number := 0x55AA55AA
                         version := 1 % 65536
                         type := 2
                         priority := 2
                         sequence_id := 5
                         timestamp := 7 % 4294967296
                         payload_size := 2
                         checksum := calculate_checksum [72, 66] }
             payload := [72, 66]
             metadata := [] } :=
  C1_serialize_deserialize_roundtrip Proto.init 7
    { header := { sequence_id := 5 }, payload := [72, 66] } (by decide) (by decide)

/-! ## Claim C8: trailing bytes are ignored by deserialize -/

/-- C8: `deserialize` ignores trailing bytes — if it succeeds on a buffer it
succeeds on any extension of that buffer with the same resulting message,
because only the 32-byte header slice and the declared payload slice are
examined. -/
theorem C8_deserialize_ignores_trailing (p : Proto) (data t : List Nat) (m : Message)
    (hm : p.deserialize data = some m) : p.deserialize (data ++ t) = some m := by
  unfold Proto.deserialize at hm ⊢
  by_cases h1 : data.length < header_size
  · rw [if_pos h1] at hm; exact absurd hm (by simp)
  rw [if_neg h1] at hm
  have hlen32 : header_size ≤ data.length := le_of_not_lt h1
  have h1' : ¬ (data ++ t).length < header_size := by
    rw [List.length_append]; omega
  rw [if_neg h1']
  rw [List.take_append_of_le_length hlen32]
  cases hh : MessageHeader.deserialize (data.take header_size) with
  | none => rw [hh] at hm; exact absurd hm (by simp)
  | some hdr =>
    rw [hh] at hm
    simp only at hm ⊢
    by_cases h2 : data.length < header_size + hdr.payload_size
    · rw [if_pos h2] at hm; exact absurd hm (by simp)
    rw [if_neg h2] at hm
    have h2' : ¬ (data ++ t).length < header_size + hdr.payload_size := by
      rw [List.length_append]; omega
    rw [if_neg h2']
    rw [List.drop_append_of_le_length hlen32]
    have hslice : (data.drop header_size ++ t).take hdr.payload_size
        = (data.drop header_size).take hdr.payload_size := by
      apply List.take_append_of_le_length
      rw [List.length_drop]; omega
    rw [hslice]
    exact hm

/-- Witness for C8 at a concrete serialized buffer and trailing bytes. -/
theorem C8_witness :
    Proto.init.deserialize
      ([170, 85, 170, 85, 1, 0, 3, 0, 4, 0, 5, 0, 0, 0, 7, 0, 0, 0, 2, 0, 0, 0,
        78, 247, 171, 225, 0, 0, 0, 0, 0, 0, 72, 66] ++ [9, 9, 9]) =
      some { header := { magic_number := 0x55AA55AA
                         version := 1
                         type := 3
                         priority := 4
                         sequence_id := 5
                         timestamp := 7
                         payload_size := 2
                         checksum := 3786143566 }
             payload := [72, 66]
             metadata := [] } :=
  C8_deserialize_ignores_trailing Proto.init
    [170, 85, 170, 85, 1, 0, 3, 0, 4, 0, 5, 0, 0, 0, 7, 0, 0, 0, 2, 0, 0, 0,
     78, 247, 171, 225, 0, 0, 0, 0, 0, 0, 72, 66] [9, 9, 9] _ (by decide)

/-! ## Claim C3: checksum sensitivity to payload corruption -/

/-- Setting an element past a left append segment sets it in the right one. -/
theorem set_append_left_length (l₁ l₂ : List Nat) (i v : Nat) :
    (l₁ ++ l₂).set (l₁.length + i) v = l₁ ++ l₂.set i v := by
  induction l₁ with
  | nil => simp
  | cons a l ih => simp [Nat.succ_add, ih]

/-- C3: replacing any single payload byte of a successfully serialized message
with a different byte value makes deserialization fail, because the CRC-32
recomputed over the altered payload no longer matches the stored checksum. -/
theorem C3_corrupted_payload_byte_fails (p : Proto) (ts : Nat) (m : Message)
    (hwf : m.wf) (hle : m.payload.length ≤ p.max_message_size) (i v : Nat)
    (hi : i < m.payload.length) (hv : v < 256)
    (hne : v ≠ m.payload.get ⟨i, hi⟩) (buf : List Nat)
    (hser : p.serialize ts m = some buf) :
    p.deserialize (buf.set (header_size + i) v) = none := by
  obtain ⟨hmg, hty, hpr, hsq, hlen, hbytes⟩ := hwf
  rw [serialize_eq p ts m hle, Option.some.injEq] at hser
  subst hser
  have hcrc : calculate_checksum m.payload < 4294967296 :=
    calculate_checksum_lt m.payload hbytes
  have hset : (MessageHeader.serialize
      { m.header with
        version := p.protocol_version
        timestamp := ts % 4294967296
        payload_size := m.payload.length % 4294967296
        checksum := calculate_checksum m.payload } ++ m.payload).set (header_size + i) v =
      (MessageHeader.serialize
      { m.header with
        version := p.protocol_version
        timestamp := ts % 4294967296
        payload_size := m.payload.length % 4294967296
        checksum := calculate_checksum m.payload }) ++ m.payload.set i v := by
    conv_lhs => rw [show header_size = (MessageHeader.serialize
      { m.header with
        version := p.protocol_version
        timestamp := ts % 4294967296
        payload_size := m.payload.length % 4294967296
        checksum := calculate_checksum m.payload }).length from
        (headerSerialize_length _).symm]
    exact set_append_left_length _ _ i v
  rw [hset]
  unfold Proto.deserialize
  simp only [header_size]
  rw [List.take_left' (headerSerialize_length _), List.drop_left' (headerSerialize_length _)]
  rw [header_roundtrip
    { m.header with
      version := p.protocol_version
      timestamp := ts % 4294967296
      payload_size := m.payload.length % 4294967296
      checksum := calculate_checksum m.payload } hmg]
  rw [List.length_append, headerSerialize_length, List.length_set]
  dsimp only
  have hps : m.payload.length % 4294967296 % 4294967296 = m.payload.length := by omega
  have hck : calculate_checksum m.payload % 4294967296 = calculate_checksum m.payload := by
    omega
  rw [hps, hck]
  rw [if_neg (by omega)]
  rw [if_neg (by omega)]
  have htl : (m.payload.set i v).take m.payload.length = m.payload.set i v := by
    rw [show m.payload.length = (m.payload.set i v).length from (List.length_set _ _ _).symm]
    exact List.take_length _
  rw [htl]
  rw [if_pos (calculate_checksum_set_ne m.payload i v hbytes hi hv hne)]

/-- Witness for C3: corrupting payload byte 0 of a concrete serialized
message makes deserialization fail. -/
theorem C3_witness :
    Proto.init.deserialize
      (([170, 85, 170, 85, 1, 0, 3, 0, 4, 0, 5, 0, 0, 0, 7, 0, 0, 0, 2, 0, 0, 0,
         78, 247, 171, 225, 0, 0, 0, 0, 0, 0, 72, 66]).set (header_size + 0) 0) = none :=
  C3_corrupted_payload_byte_fails Proto.init 7
    { header := { sequence_id := 5, type := 3, priority := 4 }, payload := [72, 66] }
    (by decide) (by decide) 0 0 (by decide) (by decide) (by decide) _ (by decide)

/-! ## Claim C4: sequence-id monotonicity; Claim C5: send behavior -/

/-- The counter after `n` calls on a fresh instance is `n` modulo `2^32`. -/
theorem protoAfterCalls_counter (n : Nat) :
    (protoAfterCalls n).sequence_counter = n % 4294967296 := by
  induction n with
  | zero => rfl
  | succ n ih =>
    show ((protoAfterCalls n).get_next_sequence_id.2).sequence_counter = _
    unfold Proto.get_next_sequence_id
    simp only [ih]
    omega

/-- C4 counterexample: on the `2^32`-th call the `uint32_t` counter wraps to 0,
which is not greater than the previous call's value `2^32 - 1`. -/
theorem C4_counterexample :
    ((protoAfterCalls 4294967295).get_next_sequence_id).1 = 0 ∧
    ((protoAfterCalls 4294967294).get_next_sequence_id).1 = 4294967295 ∧
    ¬ (0 > 4294967295) := by
  refine ⟨?_, ?_, by omega⟩
  · simp [Proto.get_next_sequence_id, protoAfterCalls_counter]
  · simp [Proto.get_next_sequence_id, protoAfterCalls_counter]

/-- C4 (amended): consecutive `get_next_sequence_id` calls strictly increase
as long as the previous call's value is below `2^32 - 1` (no `uint32_t`
wraparound); the first call after construction returns 1; the first call after
`reset_sequence_id()` returns 1. -/
theorem C4_sequence_ids :
    (∀ p : Proto, (p.get_next_sequence_id).1 < 4294967295 →
      ((p.get_next_sequence_id).2.get_next_sequence_id).1 > (p.get_next_sequence_id).1) ∧
    (Proto.init.get_next_sequence_id).1 = 1 ∧
    (∀ p : Proto, ((p.reset_sequence_id).get_next_sequence_id).1 = 1) := by
  refine ⟨?_, rfl, fun p => rfl⟩
  intro p h
  unfold Proto.get_next_sequence_id at *
  simp only at h ⊢
  omega

/-- Witness for C4 on a freshly constructed instance. -/
theorem C4_witness :
    ((Proto.init.get_next_sequence_id).2.get_next_sequence_id).1 >
      (Proto.init.get_next_sequence_id).1 :=
  C4_sequence_ids.1 Proto.init (by decide)

/-- C5: `UdpClient::send` returns `SOCKET_INIT_FAILED` whenever uninitialized
and `INVALID_PARAMETER` on an empty buffer, leaving the statistics untouched in
both cases; on transport failure it increments `send_errors` only and returns
`SOCKET_SEND_FAILED`; on success it increments `packets_sent` by 1 and
`bytes_sent` by the payload length and returns `SUCCESS`. -/
theorem C5_send_behavior :
    (∀ (st : UdpClientState) (data : List Nat) (ok : Bool), st.is_initialized = false →
      udpSend st data ok = (.SOCKET_INIT_FAILED, st)) ∧
    (∀ (st : UdpClientState) (ok : Bool), st.is_initialized = true →
      udpSend st [] ok = (.INVALID_PARAMETER, st)) ∧
    (∀ (st : UdpClientState) (data : List Nat), st.is_initialized = true → data ≠ [] →
      udpSend st data false = (.SOCKET_SEND_FAILED,
        { st with stats := { st.stats with send_errors := st.stats.send_errors + 1 } })) ∧
    (∀ (st : UdpClientState) (data : List Nat), st.is_initialized = true → data ≠ [] →
      udpSend st data true = (.SUCCESS,
        { st with stats := { st.stats with
            packets_sent := st.stats.packets_sent + 1
            bytes_sent := st.stats.bytes_sent + data.length } })) := by
  refine ⟨?_, ?_, ?_, ?_⟩
  · intro st data ok h
    simp [udpSend, h]
  · intro st ok h
    simp [udpSend, h]
  · intro st data h hne
    simp [udpSend, h, hne, update_stats_error]
  · intro st data h hne
    simp [udpSend, h, hne, update_stats_sent]

/-- Witness for C5 at concrete client states and buffers. -/
theorem C5_witness :
    udpSend {} [1, 2] true = (.SOCKET_INIT_FAILED, {}) ∧
    udpSend { is_initialized := true } [] true =
      (.INVALID_PARAMETER, { is_initialized := true }) ∧
    udpSend { is_initialized := true } [1, 2] false =
      (.SOCKET_SEND_FAILED, { is_initialized := true, stats := { send_errors := 1 } }) ∧
    udpSend { is_initialized := true } [1, 2] true =
      (.SUCCESS, { is_initialized := true, stats := { packets_sent := 1, bytes_sent := 2 } }) :=
  ⟨C5_send_behavior.1 {} [1, 2] true rfl,
   C5_send_behavior.2.1 { is_initialized := true } true rfl,
   C5_send_behavior.2.2.1 { is_initialized := true } [1, 2] rfl (by decide),
   C5_send_behavior.2.2.2 { is_initialized := true } [1, 2] rfl (by decide)⟩

/-! ## Claim C6: missing config file; Claim C7: logger level gating -/

/-- C6: `load_config` on a file that cannot be opened returns `SUCCESS` and
leaves the key→item map exactly as it was (only the remembered path changes,
which the source assigns unconditionally); `INVALID_PARAMETER` is returned
precisely for the empty path. -/
theorem C6_load_config_missing_file :
    (∀ (fs : FileSystem) (st : CMState) (path : String), path ≠ "" → fs path = none →
      load_config fs st path = (.SUCCESS, { st with config_file := path })) ∧
    (∀ (fs : FileSystem) (st : CMState) (path : String),
      (load_config fs st path).1 = .INVALID_PARAMETER ↔ path = "") := by
  constructor
  · intro fs st path hp hfs
    simp [load_config, hp, hfs]
  · intro fs st path
    constructor
    · intro h
      by_contra hp
      rw [show ¬ path = "" ↔ path ≠ "" from Iff.rfl] at hp
      unfold load_config at h
      rw [if_neg hp] at h
      cases hfs : fs path with
      | none => rw [hfs] at h; simp at h
      | some content =>
        rw [hfs] at h
        by_cases he : get_file_extension path = "json"
        · rw [if_pos he] at h
          unfold load_json_config at h
          rw [hfs] at h
          simp [parse_json] at h
        · rw [if_neg he] at h
          unfold load_ini_config at h
          rw [hfs] at h
          simp [parse_ini] at h
    · intro hp
      simp [load_config, hp]

/-- Witness for C6 on an empty filesystem. -/
theorem C6_witness :
    load_config (fun _ => none) CMState.init "missing.ini" =
      (.SUCCESS, { CMState.init with config_file := "missing.ini" }) ∧
    (load_config (fun _ => none) CMState.init "").1 = .INVALID_PARAMETER :=
  ⟨C6_load_config_missing_file.1 (fun _ => none) CMState.init "missing.ini"
      (by decide) rfl,
   (C6_load_config_missing_file.2 (fun _ => none) CMState.init "").mpr rfl⟩

/-- C7: `is_enabled(L)` holds exactly when `L` is at or above the logger's
current level; a Debug logger disables Trace and enables Error; an Off logger
is disabled for every level up to and including Fatal. -/
theorem C7_is_enabled :
    (∀ (lg : Logger) (level : LogLevel),
      lg.is_enabled level = true ↔ lg.level.toNat ≤ level.toNat) ∧
    (∀ lg : Logger, lg.level = .DEBUG →
      lg.is_enabled .TRACE = false ∧ lg.is_enabled .LOG_ERROR = true) ∧
    (∀ (lg : Logger) (level : LogLevel), lg.level = .OFF →
      level.toNat ≤ LogLevel.FATAL.toNat → lg.is_enabled level = false) := by
  refine ⟨?_, ?_, ?_⟩
  · intro lg level
    simp [Logger.is_enabled]
  · intro lg h
    constructor <;> simp [Logger.is_enabled, h, LogLevel.toNat]
  · intro lg level h hle
    cases level <;> simp_all [Logger.is_enabled, LogLevel.toNat]

/-- Witness for C7 at concrete loggers and levels. -/
theorem C7_witness :
    (({ level := .INFO } : Logger).is_enabled .WARN = true) ∧
    (({ level := .DEBUG } : Logger).is_enabled .TRACE = false ∧
      ({ level := .DEBUG } : Logger).is_enabled .LOG_ERROR = true) ∧
    (({ level := .OFF } : Logger).is_enabled .FATAL = false) :=
  ⟨(C7_is_enabled.1 { level := .INFO } .WARN).mpr (by decide),
   C7_is_enabled.2.1 { level := .DEBUG } rfl,
   C7_is_enabled.2.2 { level := .OFF } .FATAL rfl (by decide)⟩

/-! ## Claim C2: import_config error reporting; Claim C9: replace vs merge -/

/-- C2 counterexample: malformed-but-present JSON and INI text is accepted
with `SUCCESS`, not surfaced as `PROTOCOL_ERROR`. -/
theorem C2_counterexample :
    (CMState.init.import_config "this is not valid json at all" "json").1 = .SUCCESS ∧
    (CMState.init.import_config "this is not an ini [file" "ini").1 = .SUCCESS ∧
    ErrorCode.SUCCESS ≠ ErrorCode.PROTOCOL_ERROR :=
  ⟨rfl, rfl, by decide⟩

/-- C2 (amended): `parse_json` and `parse_ini` always yield a map (unparseable
lines are silently skipped), so `import_config` returns `SUCCESS` for every
input string and format; the `PROTOCOL_ERROR` branch is unreachable. -/
theorem C2_import_config_always_succeeds :
    ∀ (st : CMState) (config_str format : String),
      (st.import_config config_str format).1 = .SUCCESS := by
  intro st s f
  unfold CMState.import_config
  by_cases hf : f = "json" <;> simp [hf, parse_json, parse_ini]

/-- C9: `import_config` replaces the whole key→item map with the parse result
(a key absent from the imported text is absent afterwards, whatever was stored
before), while `load_json_config`/`load_ini_config` merge the parsed entries
into the existing map (keys not mentioned in the file keep their items). -/
theorem C9_import_replaces_load_merges :
    (∀ (st : CMState) (text key : String),
      (st.import_config text "json").2.config_items key =
        ((parse_json text).getD emptyCMap) key) ∧
    (∀ (st : CMState) (text format key : String), format ≠ "json" →
      (st.import_config text format).2.config_items key =
        ((parse_ini text).getD emptyCMap) key) ∧
    (∀ (fs : FileSystem) (st : CMState) (path content key : String),
      fs path = some content → ((parse_json content).getD emptyCMap) key = none →
      (load_json_config fs st path).2.config_items key = st.config_items key) ∧
    (∀ (fs : FileSystem) (st : CMState) (path content key : String),
      fs path = some content → ((parse_ini content).getD emptyCMap) key = none →
      (load_ini_config fs st path).2.config_items key = st.config_items key) := by
  refine ⟨?_, ?_, ?_, ?_⟩
  · intro st text key
    simp [CMState.import_config, parse_json]
  · intro st text format key hf
    simp [CMState.import_config, hf, parse_ini]
  · intro fs st path content key hfs hnone
    simp only [parse_json, Option.getD_some] at hnone
    simp [load_json_config, hfs, parse_json, mergeItems, hnone]
  · intro fs st path content key hfs hnone
    simp only [parse_ini, Option.getD_some] at hnone
    simp [load_ini_config, hfs, parse_ini, mergeItems, hnone]

/-- Witness for C9: importing drops `server.host`; loading an INI file that
does not mention `server.host` preserves it. -/
theorem C9_witness :
    (CMState.init.import_config "a:b" "json").2.config_items "server.host" =
      ((parse_json "a:b").getD emptyCMap) "server.host" ∧
    (load_ini_config (fun p => if p = "c.ini" then some "x = 1" else none)
        CMState.init "c.ini").2.config_items "server.host" =
      CMState.init.config_items "server.host" :=
  ⟨C9_import_replaces_load_merges.1 CMState.init "a:b" "server.host",
   C9_import_replaces_load_merges.2.2.2
     (fun p => if p = "c.ini" then some "x = 1" else none)
     CMState.init "c.ini" "x = 1" "server.host" rfl (by decide)⟩

/-! ## Claim C10: builder payload-size invariant -/

/-- A builder setter is within `uint32_t` range: any payload installed by a
`set_payload` overload has a length below `2^32` (always true of C++
in-memory buffers, where the length is truncated by `static_cast<uint32_t>`).
-/
def builderOpOK : BuilderOp → Bool
  | .set_payload_bytes payload => payload.length < 4294967296
  | .set_payload_string s => s.data.length < 4294967296
  | _ => true

/-- Every single builder setter preserves `payload_size = payload length`. -/
theorem applyBuilderOp_inv (m : Message) (op : BuilderOp)
    (hm : m.header.payload_size = m.payload.length) (hop : builderOpOK op = true) :
    (applyBuilderOp m op).header.payload_size = (applyBuilderOp m op).payload.length := by
  cases op with
  | set_type t => simpa [applyBuilderOp] using hm
  | set_priority pr => simpa [applyBuilderOp] using hm
  | set_payload_bytes payload =>
    simp only [builderOpOK, decide_eq_true_eq] at hop
    simp [applyBuilderOp]
    omega
  | set_payload_string s =>
    simp only [builderOpOK, decide_eq_true_eq] at hop
    simp [applyBuilderOp]
    have hsl : s.length = s.data.length := rfl
    omega
  | add_metadata k v => simpa [applyBuilderOp] using hm
  | set_sequence_id seq_id => simpa [applyBuilderOp] using hm

/-- C10: after either `set_payload` overload the message under construction
has `header.payload_size` equal to the payload's byte length, and every
message produced by `build()` from a chain of setter calls satisfies the
payload-size conjunct of `Message::is_valid`. -/
theorem C10_builder_payload_size :
    (∀ (m : Message) (payload : List Nat), payload.length < 4294967296 →
      (applyBuilderOp m (.set_payload_bytes payload)).header.payload_size =
        (applyBuilderOp m (.set_payload_bytes payload)).payload.length) ∧
    (∀ (m : Message) (s : String), s.data.length < 4294967296 →
      (applyBuilderOp m (.set_payload_string s)).header.payload_size =
        (applyBuilderOp m (.set_payload_string s)).payload.length) ∧
    (∀ ops : List BuilderOp, (∀ op ∈ ops, builderOpOK op = true) →
      (build (runBuilder ops)).header.payload_size =
        (build (runBuilder ops)).payload.length) := by
  refine ⟨?_, ?_, ?_⟩
  · intro m payload h
    simp [applyBuilderOp]
    omega
  · intro m s h
    simp [applyBuilderOp]
    have hsl : s.length = s.data.length := rfl
    omega
  · intro ops hops
    unfold build runBuilder
    have : ∀ (l : List BuilderOp) (m : Message), (∀ op ∈ l, builderOpOK op = true) →
        m.header.payload_size = m.payload.length →
        (l.foldl applyBuilderOp m).header.payload_size =
          (l.foldl applyBuilderOp m).payload.length := by
      intro l
      induction l with
      | nil => intro m _ hm; exact hm
      | cons op rest ih =>
        intro m hl hm
        exact ih _ (fun x hx => hl x (List.mem_cons_of_mem _ hx))
          (applyBuilderOp_inv m op hm (hl op (List.mem_cons_self _ _)))
    exact this ops builderInit hops rfl

/-- Witness for C10 on a concrete builder chain. -/
theorem C10_witness :
    (build (runBuilder [.set_type 3, .set_payload_bytes [1, 2, 3],
        .set_sequence_id 9])).header.payload_size =
      (build (runBuilder [.set_type 3, .set_payload_bytes [1, 2, 3],
        .set_sequence_id 9])).payload.length :=
  C10_builder_payload_size.2.2
    [.set_type 3, .set_payload_bytes [1, 2, 3], .set_sequence_id 9] (by decide)

end Udp2docker
